import Mathlib

/-!
Verification of the shared request/response core of the feedbin client
variants: error classification, URL resolution, pagination extraction,
bulk-mutation helpers, response decoding and entry-parameter building.

Each Go function referenced by the claims is embedded as an executable Lean
definition named after its variant and Go symbol:

* `vscode…`   — the vscode-cline-claude4 variant (src/unnamed/part_013,
  src/unnamed/part_010, src/feedbin-api/vscode-cline-claude4/*)
* `zed…`      — the zed-claude-4 variant (src/feedbin-api/zed-claude-4/*,
  src/unnamed/part_006 is its subscriptions.go)
* `claude…`   — the claudecode-claude-4-opus variant
  (src/feedbin-api/claudecode-claude-4-opus/client.go, src/unnamed/part_020
  is its entries.go)
* `gemini…`   — the gemini-cli-gemini-2.5-pro variant
  (src/feedbin-api/gemini-cli-gemini-2.5-pro/client.go)
* `jules…`    — the jules-feedbin-client variant (src/unnamed/part_001)
* `part014…`  — the feedbinapi variant pagination file (src/unnamed/part_014)

Go strings are modelled as Lean `String`s (with helpers mirroring the exact
`strings.*` / `strconv.*` functions the sources call), machine integers as
`Int`/`Nat` (none of the embedded code overflows), JSON payloads as an
explicit `Json` syntax tree with a deterministic renderer standing for
`encoding/json.Marshal`, and side effects (issuing a network request,
mutating an options struct through a pointer) as explicit returned values.
-/

/-! ### Go string primitives

Helpers mirroring the exact semantics of the `strings` package functions the
embedded sources call.  All of them work on `List Char` internally and are
wrapped for `String`. -/

/-- Model of `strings.Split(s, sep)` for a one-character separator: split at
every occurrence of the separator; `Split("", sep) = [""]`. -/
def splitOnChar (sep : Char) (cs : List Char) : List (List Char) :=
  cs.foldr
    (fun c acc =>
      match acc with
      | cur :: done => if c = sep then [] :: cur :: done else (c :: cur) :: done
      | [] => [[c]])
    [[]]

/-- Character class of `unicode.IsSpace` restricted to ASCII (the only
code points the embedded headers can contain). -/
def isGoSpace (c : Char) : Bool :=
  c = ' ' || c = '\t' || c = '\n' || c = '\x0b' || c = '\x0c' || c = '\r'

/-- Drop characters satisfying `p` from both ends of a character list. -/
def trimEndsWith (p : Char → Bool) (cs : List Char) : List Char :=
  ((cs.dropWhile p).reverse.dropWhile p).reverse

/-- Model of `strings.TrimSpace`. -/
def goTrimSpace (cs : List Char) : List Char :=
  trimEndsWith isGoSpace cs

/-- Model of `strings.Trim(s, cutset)`: remove any characters of the cutset
from both ends (Go treats the cutset as a set of characters, not as a
string to strip — the source of the `rel="last"` bug in part_001). -/
def goTrimCutset (cutset : List Char) (cs : List Char) : List Char :=
  trimEndsWith (fun c => cutset.contains c) cs

/-- Model of `strings.TrimSuffix(s, "/")`: removes one trailing slash if
present. -/
def dropOneTrailSlash (cs : List Char) : List Char :=
  if cs.getLast? = some '/' then cs.dropLast else cs

/-- Model of `strings.TrimPrefix` applied to `"/"`: removes one leading
slash if present. -/
def dropOneLeadSlash (cs : List Char) : List Char :=
  match cs with
  | '/' :: t => t
  | cs => cs

/-- Everything up to and including the last `'/'` of the list
(`base[:strings.LastIndex(base, "/")+1]` in Go); empty if there is no
slash. -/
def upToLastSlash (cs : List Char) : List Char :=
  (cs.reverse.dropWhile (fun c => c ≠ '/')).reverse

/-- Model of `strconv.Atoi` (= `strconv.ParseInt(s, 10, 0)` on a 64-bit
platform): an optional single `+`/`-` sign followed by at least one decimal
digit, rejecting anything else and values outside the `int64` range. -/
def goAtoi (cs : List Char) : Option Int :=
  let signed : Bool × List Char :=
    match cs with
    | '+' :: t => (false, t)
    | '-' :: t => (true, t)
    | t => (false, t)
  let ds := signed.2
  if ds = [] then none
  else if ds.all (fun c => c.isDigit) then
    let n : Nat := ds.foldl (fun a c => a * 10 + (c.toNat - '0'.toNat)) 0
    let v : Int := if signed.1 then -(n : Int) else (n : Int)
    if v < -(2 ^ 63) ∨ 2 ^ 63 - 1 < v then none else some v
  else none

/-! ### JSON values

`encoding/json.Marshal` output is modelled by a syntax tree plus a
deterministic renderer.  A Go struct with json tags marshals to an object
whose fields appear in declaration order, which is how every embedded call
site builds its body. -/

/-- JSON syntax tree for request/response payloads. -/
inductive Json where
  | jnum (n : Int)
  | jstr (s : String)
  | jbool (b : Bool)
  | jarr (xs : List Json)
  | jobj (fs : List (String × Json))

/-- Deterministic rendering of a `Json` value, matching the byte output of
`encoding/json.Marshal` for the payloads the claims exercise (integer
numbers, simple strings without escapes, arrays, objects in field order). -/
def renderJson : Json → String
  | .jnum n => toString n
  | .jstr s => "\"" ++ s ++ "\""
  | .jbool b => if b then "true" else "false"
  | .jarr xs => "[" ++ String.intercalate "," (xs.attach.map fun x => renderJson x.1) ++ "]"
  | .jobj fs =>
      "\x7b" ++
        String.intercalate ","
          (fs.attach.map fun f => "\"" ++ f.1.1 ++ "\":" ++ renderJson f.1.2) ++
      "\x7d"
decreasing_by
  · have h := List.sizeOf_lt_of_mem x.2
    simp only [Json.jarr.sizeOf_spec]
    omega
  · have h := List.sizeOf_lt_of_mem f.2
    have h2 : sizeOf f.1.2 < sizeOf f.1 := by
      rcases f with ⟨⟨a, b⟩, hf⟩
      simp only [Prod.mk.sizeOf_spec]
      omega
    simp only [Json.jobj.sizeOf_spec]
    omega

/-! ### part_013 (vscode-cline-claude4) error classifier — claim C1 -/

/-- Result of `json.Unmarshal` of a non-2xx response body into the
anonymous struct `{Message string; Error string; Errors map[string][]string}`
of `handleErrorResponse`: the body may be empty (no parse is attempted),
fail to parse, or yield the three fields.  The `errors` map is carried as
an association list; Go's map iteration order is unspecified, so the list
order stands for one arbitrary iteration order. -/
inductive ErrBody where
  | empty
  | malformed (raw : String)
  | parsed (message err : String) (errors : List (String × List String))
  deriving DecidableEq, Repr

/-- The `APIError` struct of vscode-cline-claude4/models.go (the `Response`
pointer field is dropped; it carries no data the claims mention). -/
structure VApiError where
  statusCode : Nat
  message : String
  retryable : Bool
  deriving DecidableEq, Repr

/-- Embedding of `handleErrorResponse` (part_013 lines 314–356): build an
`APIError` from the status code, the status line (`resp.Status`) and the
parsed error body, setting `Retryable = StatusCode >= 500 || StatusCode == 429`. -/
def vscodeHandleErrorResponse (status : Nat) (statusLine : String) (b : ErrBody) : VApiError :=
  let msg : String :=
    match b with
    | .empty => ""
    | .malformed _ => ""
    | .parsed m e errs =>
        if m ≠ "" then m
        else if e ≠ "" then e
        else if errs ≠ [] then
          String.intercalate ", "
            (errs.flatMap fun fe => fe.2.map (fun x => fe.1 ++ ": " ++ x))
        else ""
  { statusCode := status
    message := if msg = "" then statusLine else msg
    retryable := decide (500 ≤ status) || (status == 429) }

/-! ### Bulk mutation operations — claims C3, C4, C9

Each operation is embedded as a function from the ID list to the externally
observable step it performs: returning immediately without any network
request (either successfully or with a client-side error), or issuing one
HTTP request with a method, a path and a JSON body. -/

/-- A Go error value as produced by the embedded bulk operations:
`fmt.Errorf` strings, or the zed variant's structured `ValidationError`. -/
inductive GoError where
  | errorString (msg : String)
  | validation (field msg : String)
  deriving DecidableEq, Repr

/-- Externally observable outcome of invoking a bulk mutation helper:
`noop` = the function returned before building a request (with its result
value, `none` for the error-only signatures), `fail` = it returned a
client-side error before any network call, `request` = it issued exactly
one HTTP request. -/
inductive BulkStep where
  | noop (result : Option (List Int))
  | fail (e : GoError)
  | request (method path : String) (body : Json)

/-- The `MaxBulkOperationSize` constant of part_013. -/
def MaxBulkOperationSize : Nat := 1000

/-- Embedding of `StarEntries` (part_013 lines 466–486): empty list →
return `([]int{}, nil)`; more than `MaxBulkOperationSize` IDs → error; else
POST `starred_entries.json` with body `{"starred_entries": ids}`. -/
def vscodeStarEntries (entryIDs : List Int) : BulkStep :=
  if entryIDs.length = 0 then .noop (some [])
  else if MaxBulkOperationSize < entryIDs.length then
    .fail (.errorString
      ("too many entry IDs: maximum " ++ toString MaxBulkOperationSize ++
        " allowed, got " ++ toString entryIDs.length))
  else
    .request "POST" "starred_entries.json"
      (.jobj [("starred_entries", .jarr (entryIDs.map .jnum))])

/-- Embedding of `MarkEntriesRead` (part_020 lines 51–65, the
claudecode-claude-4-opus entries.go): empty list → return nil; more than
1000 IDs → error; else DELETE `/unread_entries.json` with body
`{"unread_entries": ids}`. -/
def claudeMarkEntriesRead (entryIDs : List Int) : BulkStep :=
  if entryIDs.length = 0 then .noop none
  else if 1000 < entryIDs.length then
    .fail (.errorString
      ("maximum 1000 entry IDs allowed per request, got " ++ toString entryIDs.length))
  else
    .request "DELETE" "/unread_entries.json"
      (.jobj [("unread_entries", .jarr (entryIDs.map .jnum))])

/-- Embedding of `MarkEntriesReadAlt` (part_020 lines 187–201): same guards
and body as `MarkEntriesRead`, but POST to `/unread_entries/delete.json`. -/
def claudeMarkEntriesReadAlt (entryIDs : List Int) : BulkStep :=
  if entryIDs.length = 0 then .noop none
  else if 1000 < entryIDs.length then
    .fail (.errorString
      ("maximum 1000 entry IDs allowed per request, got " ++ toString entryIDs.length))
  else
    .request "POST" "/unread_entries/delete.json"
      (.jobj [("unread_entries", .jarr (entryIDs.map .jnum))])

/-- Embedding of `UnstarEntries` (part_020 lines 109–123): empty list →
nil; more than 1000 IDs → error; else DELETE `/starred_entries.json` with
body `{"starred_entries": ids}`. -/
def claudeUnstarEntries (entryIDs : List Int) : BulkStep :=
  if entryIDs.length = 0 then .noop none
  else if 1000 < entryIDs.length then
    .fail (.errorString
      ("maximum 1000 entry IDs allowed per request, got " ++ toString entryIDs.length))
  else
    .request "DELETE" "/starred_entries.json"
      (.jobj [("starred_entries", .jarr (entryIDs.map .jnum))])

/-- Embedding of `UnstarEntriesAlt` (part_020 lines 205–219): same guards
and body as `UnstarEntries`, but POST to `/starred_entries/delete.json`. -/
def claudeUnstarEntriesAlt (entryIDs : List Int) : BulkStep :=
  if entryIDs.length = 0 then .noop none
  else if 1000 < entryIDs.length then
    .fail (.errorString
      ("maximum 1000 entry IDs allowed per request, got " ++ toString entryIDs.length))
  else
    .request "POST" "/starred_entries/delete.json"
      (.jobj [("starred_entries", .jarr (entryIDs.map .jnum))])

/-- Embedding of `MarkAsUnread` (zed-claude-4/entries.go lines 88–114): an
empty list is rejected with a `ValidationError` (not a no-op), more than
1000 IDs is rejected with a `ValidationError`, otherwise POST
`/unread_entries.json` with body `{"unread_entries": ids}`. -/
def zedMarkAsUnread (entryIDs : List Int) : BulkStep :=
  if entryIDs.length = 0 then
    .fail (.validation "entry_ids" "at least one entry ID is required")
  else if 1000 < entryIDs.length then
    .fail (.validation "entry_ids" "maximum of 1,000 entry IDs allowed per request")
  else
    .request "POST" "/unread_entries.json"
      (.jobj [("unread_entries", .jarr (entryIDs.map .jnum))])

/-- A built HTTP request of the gemini-cli variant: method, resource path
and marshalled JSON body. -/
structure GoRequest where
  method : String
  path : String
  body : Json

/-- Embedding of `UnstarEntries` (gemini-cli-gemini-2.5-pro/client.go lines
449–466): the body `{"starred_entries": ids}` is built once; the
`usePostAlternative` flag only switches the verb/path pair from
DELETE `starred_entries.json` to POST `starred_entries/delete.json`. -/
def geminiUnstarEntries (ids : List Int) (usePostAlternative : Bool) : GoRequest :=
  let body : Json := .jobj [("starred_entries", .jarr (ids.map .jnum))]
  if usePostAlternative then
    { method := "POST", path := "starred_entries/delete.json", body := body }
  else
    { method := "DELETE", path := "starred_entries.json", body := body }

/-- Embedding of `MarkAsRead` (gemini-cli-gemini-2.5-pro/client.go lines
405–421): the body `{"unread_entries": ids}` is built once; the flag
switches DELETE `unread_entries.json` to POST `unread_entries/delete.json`. -/
def geminiMarkAsRead (ids : List Int) (usePostAlternative : Bool) : GoRequest :=
  let body : Json := .jobj [("unread_entries", .jarr (ids.map .jnum))]
  if usePostAlternative then
    { method := "POST", path := "unread_entries/delete.json", body := body }
  else
    { method := "DELETE", path := "unread_entries.json", body := body }

/-! ### URL resolution — claim C5 -/

/-- Embedding of the path part of `buildURL` (part_013 lines 202–212):
`u.Path = strings.TrimSuffix(u.Path, "/") + "/" + strings.TrimPrefix(path, "/")`. -/
def vscodeBuildURLPath (basePath p : String) : String :=
  ⟨dropOneTrailSlash basePath.data ++ '/' :: dropOneLeadSlash p.data⟩

/-- Embedding of the path join of `newRequest`
(gemini-cli-gemini-2.5-pro/client.go lines 34–46): `u.Path = u.Path + rel.Path`. -/
def geminiJoinPath (basePath p : String) : String :=
  basePath ++ p

/-- Dot-segment removal over already-split path segments (RFC 3986
§5.2.4), as performed by `net/url`'s path cleaning.  The resolutions the
claims exercise contain no `"."`/`".."` segments, on which this is the
identity, but the step is kept so the embedding is total and faithful. -/
def removeDotSegs : List (List Char) → List (List Char) → List (List Char)
  | acc, [] => acc.reverse
  | acc, ['.'] :: [] => acc.reverse ++ [[]]
  | acc, ['.'] :: rest => removeDotSegs acc rest
  | acc, ['.', '.'] :: [] => acc.tail.reverse ++ [[]]
  | acc, ['.', '.'] :: rest => removeDotSegs acc.tail rest
  | acc, seg :: rest => removeDotSegs (seg :: acc) rest

/-- Embedding of `net/url.resolvePath(base, ref)`, the path resolution
performed by `(*URL).Parse`/`ResolveReference` for a relative reference
(zed-claude-4/client.go line 82 `c.baseURL.Parse(path)`): a reference with
no leading slash replaces everything after the last slash of the base path;
a leading-slash reference replaces the base path entirely; dot segments are
then removed. -/
def urlResolvePath (base ref : String) : String :=
  let full : List Char :=
    if ref.data = [] then base.data
    else if ref.data.head? = some '/' then ref.data
    else upToLastSlash base.data ++ ref.data
  if full = [] then ""
  else
    ⟨'/' :: List.intercalate ['/'] (removeDotSegs [] (splitOnChar '/' (dropOneLeadSlash full)))⟩

/-! ### Response decoding — claim C6

The decode step of each variant is embedded as a function of the response
status, the body, a caller-supplied parse function standing for
`json.Unmarshal` into the caller's target type, and the target's current
value; it returns the target's final value or the decode error. -/

/-- Result of `json.NewDecoder(resp.Body).Decode(v)`: an empty stream
yields `io.EOF`, a malformed stream an error, otherwise the decoded
value. -/
inductive DecodeResult (α : Type) where
  | eof
  | ok (v : α)
  | fail
  deriving DecidableEq, Repr

/-- Model of running `json.NewDecoder` over the body: empty input gives
`io.EOF`; otherwise the caller-supplied parse decides. -/
def decodeStream {α : Type} (body : String) (parse : String → Option α) : DecodeResult α :=
  if body = "" then .eof
  else match parse body with
    | some v => .ok v
    | none => .fail

/-- Embedding of the decode step of `doRequest` (part_013 lines 304–311):
`json.Unmarshal` runs only when a result target was supplied and the body
is non-empty (`if result != nil && len(body) > 0`); otherwise the target is
left unmodified and no error is returned. -/
def vscodeDecodeBody {α : Type} (body : String) (parse : String → Option α)
    (target : α) (wantResult : Bool) : Except String α :=
  if wantResult ∧ 0 < body.length then
    match parse body with
    | some v => .ok v
    | none => .error "failed to parse response JSON"
  else .ok target

/-- Embedding of the decode step of `get`/`post`/`patch`
(claudecode-claude-4-opus/client.go lines 101–116): decode whenever a
result target was supplied and the status is not 204; `io.EOF` from an
empty body is a non-nil error and is returned as a decode failure. -/
def claudeDecodeBody {α : Type} (status : Nat) (body : String) (parse : String → Option α)
    (target : α) (wantResult : Bool) : Except String α :=
  if wantResult ∧ status ≠ 204 then
    match decodeStream body parse with
    | .ok v => .ok v
    | .eof => .error "failed to decode response"
    | .fail => .error "failed to decode response"
  else .ok target

/-- Embedding of the decode step of `Do` (part_001 lines 198–220): a 204
status skips decoding; `io.EOF` (empty body) is explicitly treated as a
non-error, leaving the target unmodified. -/
def julesDecodeBody {α : Type} (status : Nat) (body : String) (parse : String → Option α)
    (target : α) (wantResult : Bool) : Except String α :=
  if wantResult then
    if status = 204 then .ok target
    else match decodeStream body parse with
      | .eof => .ok target
      | .ok v => .ok v
      | .fail => .error "decoding response"
  else .ok target

/-! ### Link-header parsing and pagination extraction — claims C7, C8 -/

/-- Cursor of pagination URLs; the zero value has every URL empty, matching
the zero values of the Go structs (`Links`, `PaginationLinks`,
`PaginationInfo`). -/
structure LinkSet where
  first : String := ""
  prev : String := ""
  next : String := ""
  last : String := ""
  deriving DecidableEq, Repr

/-- The `switch rel` statement shared verbatim by the parsers: assign the
URL to the field named by the rel value, ignoring unknown rels. -/
def applyRel (l : LinkSet) (rel url : String) : LinkSet :=
  if rel = "first" then { l with first := url }
  else if rel = "prev" then { l with prev := url }
  else if rel = "next" then { l with next := url }
  else if rel = "last" then { l with last := url }
  else l

/-- Embedding of `parseLinkHeader` (gemini-cli-gemini-2.5-pro/client.go
lines 112–143): split on commas; per part, split on `;`; the first segment
trimmed of `<>` is the URL; every further segment split on `=` must have
first piece `rel`, and its second piece trimmed of `"` is the rel name. -/
def geminiParseLinkHeader (header : String) : LinkSet :=
  (splitOnChar ',' header.data).foldl
    (fun links part =>
      match splitOnChar ';' (goTrimSpace part) with
      | seg0 :: seg1 :: segRest =>
          let linkURL : String := ⟨goTrimCutset ['<', '>'] seg0⟩
          (seg1 :: segRest).foldl
            (fun links segment =>
              match splitOnChar '=' (goTrimSpace segment) with
              | p0 :: p1 :: _ =>
                  if p0 = "rel".data then
                    applyRel links ⟨goTrimCutset ['"'] p1⟩ linkURL
                  else links
              | _ => links)
            links
      | _ => links)
    {}

/-- Embedding of `GetPaginationLinks` (part_001 lines 234–264): split on
commas; per part, split on `;` and require two segments; the URL is
segment 0 trimmed of `<>`; the rel is segment 1 trimmed with
`strings.Trim(relPart, "rel=\"")` — note this trims the character set
`{r,e,l,=,"}` from both ends, exactly as the Go code does. -/
def julesGetPaginationLinks (linkHeader : String) : LinkSet :=
  if linkHeader = "" then {}
  else
    (splitOnChar ',' linkHeader.data).foldl
      (fun links part =>
        match splitOnChar ';' (goTrimSpace part) with
        | seg0 :: seg1 :: _ =>
            let urlPart : String := ⟨goTrimCutset ['<', '>'] seg0⟩
            let relPart := goTrimSpace seg1
            let rel : String := ⟨goTrimCutset ['r', 'e', 'l', '=', '"'] relPart⟩
            applyRel links rel urlPart
        | _ => links)
      {}

/-- One match attempt of the regular expression
`<([^>]+)>;\s*rel="([^"]+)"` anchored at the head of the character list
(the pattern shared by zed-claude-4/pagination.go and part_014): returns
the two capture groups and the remainder after the match. -/
def matchLinkAt (cs : List Char) : Option ((List Char × List Char) × List Char) :=
  match cs with
  | '<' :: rest =>
      let url := rest.takeWhile (fun c => c ≠ '>')
      if url = [] then none
      else
        match rest.dropWhile (fun c => c ≠ '>') with
        | '>' :: ';' :: rest2 =>
            match rest2.dropWhile isGoSpace with
            | 'r' :: 'e' :: 'l' :: '=' :: '"' :: rest3 =>
                let rel := rest3.takeWhile (fun c => c ≠ '"')
                if rel = [] then none
                else
                  match rest3.dropWhile (fun c => c ≠ '"') with
                  | '"' :: rest4 => some ((url, rel), rest4)
                  | _ => none
            | _ => none
        | _ => none
  | _ => none

/-- All matches of the Link-header regular expression
(`FindAllStringSubmatch(header, -1)`): scan left to right, resuming after
each match; the fuel is the input length. -/
def scanLinks : Nat → List Char → List (List Char × List Char)
  | 0, _ => []
  | _, [] => []
  | fuel + 1, c :: rest =>
      match matchLinkAt (c :: rest) with
      | some (m, rest2) => m :: scanLinks fuel rest2
      | none => scanLinks fuel rest

/-- Embedding of `parseLinkHeader` (zed-claude-4/pagination.go lines
11–44): an empty header returns the zero-value struct; otherwise each
regex match assigns its URL by rel name. -/
def zedParseLinkHeader (linkHeader : String) : LinkSet :=
  if linkHeader = "" then {}
  else
    (scanLinks linkHeader.data.length linkHeader.data).foldl
      (fun links m => applyRel links ⟨m.2⟩ ⟨m.1⟩)
      {}

/-- Embedding of `parseRecordCount` (zed-claude-4/pagination.go lines
46–57): empty header → 0; `strconv.Atoi` on the trimmed header, 0 on
error. -/
def zedParseRecordCount (header : String) : Int :=
  if header = "" then 0
  else
    match goAtoi (goTrimSpace header.data) with
    | some count => count
    | none => 0

/-- The `PaginationInfo` built by zed's `extractPaginationInfo`. -/
structure ZPaginationInfo where
  links : LinkSet := {}
  total : Int := 0
  deriving DecidableEq, Repr

/-- Embedding of `extractPaginationInfo` (zed-claude-4/pagination.go lines
59–64): parse the Link header (absent = `""`), then the record-count
header. -/
def zedExtractPaginationInfo (linkHeader countHeader : String) : ZPaginationInfo :=
  { links := zedParseLinkHeader linkHeader
    total := zedParseRecordCount countHeader }

/-- Go `map[string]string` as an association list with overwrite-on-set and
`""` for a missing key. -/
def mapSet (m : List (String × String)) (k v : String) : List (String × String) :=
  if m.any (fun p => p.1 = k) then
    m.map (fun p => if p.1 = k then (k, v) else p)
  else m ++ [(k, v)]

/-- Lookup in the association-list map; missing keys give `""` like a Go
map read. -/
def mapGet (m : List (String × String)) (k : String) : String :=
  ((m.find? (fun p => p.1 = k)).map (fun p => p.2)).getD ""

/-- Embedding of `parseLinkHeader` (part_014 lines 22–38): empty header →
empty map; otherwise every regex match stores `links[rel] = url`, with both
capture groups passed through `strings.TrimSpace`. -/
def p14ParseLinkHeader (header : String) : List (String × String) :=
  if header = "" then []
  else
    (scanLinks header.data.length header.data).foldl
      (fun m parts => mapSet m ⟨goTrimSpace parts.2⟩ ⟨goTrimSpace parts.1⟩)
      []

/-- The `PaginationInfo` struct of part_014. -/
structure P14PaginationInfo where
  nextPageURL : String := ""
  prevPageURL : String := ""
  firstPageURL : String := ""
  lastPageURL : String := ""
  totalRecords : Int := 0
  deriving DecidableEq, Repr

/-- Embedding of `extractPaginationInfo` (part_014 lines 41–72) for a
non-nil header set: absent headers read as `""`; if both headers are absent
the function returns `nil` (`none`); otherwise it fills the struct from the
parsed link map and `strconv.Atoi` of the count header (0 on error), and
returns `nil` unless some field is populated. -/
def p14ExtractPaginationInfo (linkHeader countHeader : String) : Option P14PaginationInfo :=
  if linkHeader = "" ∧ countHeader = "" then none
  else
    let parsedLinks := p14ParseLinkHeader linkHeader
    let info : P14PaginationInfo :=
      { nextPageURL := mapGet parsedLinks "next"
        prevPageURL := mapGet parsedLinks "prev"
        firstPageURL := mapGet parsedLinks "first"
        lastPageURL := mapGet parsedLinks "last"
        totalRecords :=
          match goAtoi countHeader.data with
          | some count => count
          | none => 0 }
    if info.nextPageURL ≠ "" ∨ info.prevPageURL ≠ "" ∨ info.firstPageURL ≠ "" ∨
        info.lastPageURL ≠ "" ∨ 0 < info.totalRecords then
      some info
    else none

/-! ### zed subscription creation — claim C2 -/

/-- The `APIError` struct of zed-claude-4/errors.go: status code, status
line, derived message and the raw response body. -/
structure ZedAPIError where
  statusCode : Nat
  status : String
  message : String
  body : String
  deriving DecidableEq, Repr

/-- Embedding of `NewAPIError` (zed-claude-4/errors.go lines 49–79): the
raw body is always retained; the message comes from a status-code switch,
falling back to a short non-empty body. -/
def zedNewAPIError (statusCode : Nat) (statusLine body : String) : ZedAPIError :=
  let message : String :=
    if statusCode = 401 then "invalid credentials"
    else if statusCode = 403 then "access denied - you don't own this resource"
    else if statusCode = 404 then "resource not found"
    else if statusCode = 415 then "content-type must be application/json; charset=utf-8"
    else if statusCode = 300 then "multiple feeds found at the specified URL"
    else if 0 < body.length ∧ body.length < 200 then body
    else ""
  { statusCode := statusCode, status := statusLine, message := message, body := body }

/-- Embedding of `IsMultipleChoices` (zed-claude-4/errors.go): status code
300. -/
def zedIsMultipleChoices (e : ZedAPIError) : Bool :=
  e.statusCode == 300

/-- Embedding of `checkResponse` (zed-claude-4/errors.go lines 119–124):
nil for 2xx, otherwise `NewAPIError`. -/
def zedCheckResponse (status : Nat) (statusLine body : String) : Option ZedAPIError :=
  if 200 ≤ status ∧ status < 300 then none
  else some (zedNewAPIError status statusLine body)

/-- Embedding of `decodeErrorBody` (part_006 lines 162–165).  In the
source this helper is an unimplemented stub — its entire body is
`return nil // Implementation would decode JSON from body string` — so it
ignores the body, writes nothing into its target, and reports no error. -/
def zedDecodeErrorBody (_body : String) : Option GoError :=
  none

/-- A feed-discovery candidate (`FeedChoice`): feed URL and title. -/
structure FeedChoice where
  feedURL : String
  title : String
  deriving DecidableEq, Repr

/-- Outcome of `CreateSubscription` (part_006): a validation error before
any request, a decoded subscription, a multiple-choices return carrying the
choice list next to the API error, a plain API error, or a decode failure
on the success path. -/
inductive ZedCreateSubResult (α : Type) where
  | invalidFeedURL (field msg : String)
  | ok (sub : α)
  | choices (choices : List FeedChoice) (err : ZedAPIError)
  | apiErr (err : ZedAPIError)
  | decodeFail
  deriving DecidableEq, Repr

/-- Embedding of `CreateSubscription` (part_006 lines 41–71) applied to the
HTTP response it receives: an empty feed URL is rejected client-side; a
2xx response decodes the subscription; on an error, if
`apiErr.IsMultipleChoices()` then `decodeErrorBody(apiErr.Body, &choices)`
is consulted — the stub reports success without populating `choices`, so
the nil (empty) choice slice is returned next to the error. -/
def zedCreateSubscription {α : Type} (feedURL : String) (status : Nat)
    (statusLine body : String) (parseSub : String → Option α) : ZedCreateSubResult α :=
  if feedURL = "" then .invalidFeedURL "feed_url" "feed URL is required"
  else
    match zedCheckResponse status statusLine body with
    | some apiErr =>
        if zedIsMultipleChoices apiErr then
          match zedDecodeErrorBody apiErr.body with
          | none => .choices [] apiErr
          | some _ => .apiErr apiErr
        else .apiErr apiErr
    | none =>
        match decodeStream body parseSub with
        | .ok v => .ok v
        | .eof => .decodeFail
        | .fail => .decodeFail

/-! ### part_010 (vscode-cline-claude4) entry parameter building — claim C10 -/

/-- The `MaxEntriesPerRequest` constant of part_013. -/
def MaxEntriesPerRequest : Nat := 100

/-- The `EntryOptions` struct of the vscode-cline-claude4 variant.  The
pointer-typed fields are `Option`s; `since` carries the already-formatted
timestamp string. -/
structure EntryOptions where
  page : Option Int := none
  since : Option String := none
  ids : List Int := []
  read : Option Bool := none
  starred : Option Bool := none
  perPage : Option Int := none
  mode : String := ""
  includeOriginal : Bool := false
  includeEnclosure : Bool := false
  includeContentDiff : Bool := false
  deriving DecidableEq, Repr

/-- Model of `url.Values.Set`: every key is set at most once in
`buildEntryParams`, so appending the pair records the parameter. -/
def setParam (p : List (String × String)) (k v : String) : List (String × String) :=
  p ++ [(k, v)]

/-- Embedding of `buildEntryParams` (part_010 lines 119–176).  The function
receives the options through a pointer and assigns
`opts.IDs = opts.IDs[:MaxEntriesPerRequest]` when more than 100 IDs are
supplied — mutating the caller's struct — so the embedding returns both the
built parameters and the final state of the options. -/
def vscodeBuildEntryParams :
    Option EntryOptions → List (String × String) × Option EntryOptions
  | none => ([], none)
  | some opts =>
      let params : List (String × String) := []
      let params :=
        match opts.page with
        | some n => setParam params "page" (toString n)
        | none => params
      let params :=
        match opts.since with
        | some t => setParam params "since" t
        | none => params
      let (opts, params) :=
        if 0 < opts.ids.length then
          let opts :=
            if MaxEntriesPerRequest < opts.ids.length then
              { opts with ids := opts.ids.take MaxEntriesPerRequest }
            else opts
          (opts, setParam params "ids" (String.intercalate "," (opts.ids.map toString)))
        else (opts, params)
      let params :=
        match opts.read with
        | some b => setParam params "read" (toString b)
        | none => params
      let params :=
        match opts.starred with
        | some b => setParam params "starred" (toString b)
        | none => params
      let params :=
        match opts.perPage with
        | some n => setParam params "per_page" (toString n)
        | none => params
      let params := if opts.mode ≠ "" then setParam params "mode" opts.mode else params
      let params :=
        if opts.includeOriginal then setParam params "include_original" "true" else params
      let params :=
        if opts.includeEnclosure then setParam params "include_enclosure" "true" else params
      let params :=
        if opts.includeContentDiff then
          setParam params "include_content_diff" "true"
        else params
      (params, some opts)

/-! ## Claim theorems -/

/-- C1: for every non-2xx HTTP response with status code `s` and any
response body, the error classifier (part_013 `handleErrorResponse`)
produces an APIError whose retryable flag is true if and only if `s = 429`
or `s ≥ 500`, whose status code is `s`, and whose retryable flag does not
depend on the status line or the body. -/
theorem c1_error_classifier_retryable (status : Nat) (statusLine statusLine2 : String)
    (b b2 : ErrBody) (_hnon2xx : status < 200 ∨ 300 ≤ status) :
    (vscodeHandleErrorResponse status statusLine b).retryable
        = decide (status = 429 ∨ 500 ≤ status)
    ∧ (vscodeHandleErrorResponse status statusLine b).statusCode = status
    ∧ (vscodeHandleErrorResponse status statusLine b).retryable
        = (vscodeHandleErrorResponse status statusLine2 b2).retryable := by
  refine ⟨?_, rfl, rfl⟩
  by_cases h5 : 500 ≤ status <;> by_cases h4 : status = 429 <;>
    simp [vscodeHandleErrorResponse, h5, h4]

/-- C1 witness: status 429 is non-2xx and the theorem applies to it. -/
theorem c1_error_classifier_retryable_witness :
    ((429 : Nat) < 200 ∨ 300 ≤ 429)
    ∧ ((vscodeHandleErrorResponse 429 "429 Too Many Requests" ErrBody.empty).retryable
          = decide ((429 : Nat) = 429 ∨ 500 ≤ 429)
        ∧ (vscodeHandleErrorResponse 429 "429 Too Many Requests" ErrBody.empty).statusCode = 429
        ∧ (vscodeHandleErrorResponse 429 "429 Too Many Requests" ErrBody.empty).retryable
            = (vscodeHandleErrorResponse 429 "500 oops"
                (ErrBody.parsed "slow down" "" [])).retryable) :=
  ⟨by decide,
    c1_error_classifier_retryable 429 "429 Too Many Requests" "500 oops"
      ErrBody.empty (ErrBody.parsed "slow down" "" []) (by decide)⟩

/-- The status-300 response body of the C2 scenario: two feed-discovery
candidates titled "A" and "B". -/
def multiChoiceBody : String :=
  "[\x7b\"feed_url\":\"http://a\",\"title\":\"A\"\x7d,\x7b\"feed_url\":\"http://b\",\"title\":\"B\"\x7d]"

/-- C2: the multiple-choices return of `CreateSubscription` (part_006) does
NOT carry the candidate list decoded from the 300 response body — the
`decodeErrorBody` stub reports success without writing anything, so the
choice list surfaced next to the error is empty (length 0, not 2) for the
two-candidate scenario body, whatever parser the success path would use.
The raw body is still retained on the `APIError` itself. -/
theorem c2_multiple_choices_candidates_not_decoded {α : Type}
    (parseSub : String → Option α) :
    zedCreateSubscription "http://example.com/feed" 300 "300 Multiple Choices"
        multiChoiceBody parseSub
      = ZedCreateSubResult.choices []
          (zedNewAPIError 300 "300 Multiple Choices" multiChoiceBody)
    ∧ (zedNewAPIError 300 "300 Multiple Choices" multiChoiceBody).body = multiChoiceBody
    ∧ ∀ cs e, zedCreateSubscription "http://example.com/feed" 300 "300 Multiple Choices"
          multiChoiceBody parseSub = ZedCreateSubResult.choices cs e → cs.length = 0 := by
  refine ⟨?_, rfl, ?_⟩
  · simp [zedCreateSubscription, zedCheckResponse, zedIsMultipleChoices,
      zedDecodeErrorBody, zedNewAPIError, multiChoiceBody]
  · intro cs e h
    simp [zedCreateSubscription, zedCheckResponse, zedIsMultipleChoices,
      zedDecodeErrorBody, zedNewAPIError, multiChoiceBody] at h
    obtain ⟨rfl, rfl⟩ := h
    simp

/-- C3 counterexample: the zed variant's `MarkAsUnread`, one of the cited
bulk mutation operations, invoked with the empty ID list does not return an
empty result with no error — it fails with a `ValidationError` (issuing no
request). -/
theorem c3_empty_ids_cex :
    zedMarkAsUnread []
      = BulkStep.fail (GoError.validation "entry_ids" "at least one entry ID is required") := by
  rfl

/-- C3 (amended): with an empty ID list the part_013 and part_020 bulk
mutations return an empty result and no error without issuing any request,
while the zed variant's `MarkAsUnread` instead rejects the empty list with
a `ValidationError` before any network call. -/
theorem c3_empty_ids_noop :
    vscodeStarEntries [] = BulkStep.noop (some [])
    ∧ claudeMarkEntriesRead [] = BulkStep.noop none
    ∧ claudeMarkEntriesReadAlt [] = BulkStep.noop none
    ∧ claudeUnstarEntries [] = BulkStep.noop none
    ∧ claudeUnstarEntriesAlt [] = BulkStep.noop none
    ∧ zedMarkAsUnread []
        = BulkStep.fail (GoError.validation "entry_ids" "at least one entry ID is required") := by
  refine ⟨rfl, rfl, rfl, rfl, rfl, rfl⟩

/-- C4: every embedded bulk mutation rejects a list of more than 1000 IDs
with a client-side size error before any request is issued, and for 1 to
1000 IDs the size check passes and the request is issued. -/
theorem c4_bulk_size_limit (big ids : List Int)
    (hbig : 1000 < big.length) (h1 : 1 ≤ ids.length) (h2 : ids.length ≤ 1000) :
    vscodeStarEntries big
        = BulkStep.fail (GoError.errorString
            ("too many entry IDs: maximum " ++ toString MaxBulkOperationSize ++
              " allowed, got " ++ toString big.length))
    ∧ claudeMarkEntriesRead big
        = BulkStep.fail (GoError.errorString
            ("maximum 1000 entry IDs allowed per request, got " ++ toString big.length))
    ∧ zedMarkAsUnread big
        = BulkStep.fail (GoError.validation "entry_ids"
            "maximum of 1,000 entry IDs allowed per request")
    ∧ vscodeStarEntries ids
        = BulkStep.request "POST" "starred_entries.json"
            (Json.jobj [("starred_entries", Json.jarr (ids.map Json.jnum))])
    ∧ claudeMarkEntriesRead ids
        = BulkStep.request "DELETE" "/unread_entries.json"
            (Json.jobj [("unread_entries", Json.jarr (ids.map Json.jnum))])
    ∧ zedMarkAsUnread ids
        = BulkStep.request "POST" "/unread_entries.json"
            (Json.jobj [("unread_entries", Json.jarr (ids.map Json.jnum))]) := by
  have hbig0 : ¬ big.length = 0 := by omega
  have hids0 : ¬ ids.length = 0 := by omega
  have hidsle : ¬ 1000 < ids.length := by omega
  have hbigMax : MaxBulkOperationSize < big.length := by
    simpa [MaxBulkOperationSize] using hbig
  have hidsMax : ¬ MaxBulkOperationSize < ids.length := by
    simpa [MaxBulkOperationSize] using hidsle
  refine ⟨?_, ?_, ?_, ?_, ?_, ?_⟩ <;>
    simp [vscodeStarEntries, claudeMarkEntriesRead, zedMarkAsUnread,
      hbig0, hids0, hidsle, hbigMax, hidsMax, hbig]

/-- C4 witness: 1001 IDs are rejected, a single ID issues the request. -/
theorem c4_bulk_size_limit_witness :
    (1000 < (List.replicate 1001 (0 : Int)).length)
    ∧ (1 ≤ ([5] : List Int).length) ∧ (([5] : List Int).length ≤ 1000)
    ∧ (vscodeStarEntries (List.replicate 1001 (0 : Int))
          = BulkStep.fail (GoError.errorString
              ("too many entry IDs: maximum " ++ toString MaxBulkOperationSize ++
                " allowed, got " ++ toString (List.replicate 1001 (0 : Int)).length))
        ∧ claudeMarkEntriesRead (List.replicate 1001 (0 : Int))
            = BulkStep.fail (GoError.errorString
                ("maximum 1000 entry IDs allowed per request, got "
                  ++ toString (List.replicate 1001 (0 : Int)).length))
        ∧ zedMarkAsUnread (List.replicate 1001 (0 : Int))
            = BulkStep.fail (GoError.validation "entry_ids"
                "maximum of 1,000 entry IDs allowed per request")
        ∧ vscodeStarEntries [5]
            = BulkStep.request "POST" "starred_entries.json"
                (Json.jobj [("starred_entries", Json.jarr (([5] : List Int).map Json.jnum))])
        ∧ claudeMarkEntriesRead [5]
            = BulkStep.request "DELETE" "/unread_entries.json"
                (Json.jobj [("unread_entries", Json.jarr (([5] : List Int).map Json.jnum))])
        ∧ zedMarkAsUnread [5]
            = BulkStep.request "POST" "/unread_entries.json"
                (Json.jobj [("unread_entries", Json.jarr (([5] : List Int).map Json.jnum))])) :=
  ⟨by simp only [List.length_replicate]; decide, by simp, by simp,
    c4_bulk_size_limit (List.replicate 1001 (0 : Int)) [5]
      (by simp only [List.length_replicate]; decide) (by simp) (by simp)⟩

/-- C5: the zed variant resolves resource paths with `net/url` reference
resolution against its default base path `/v2` (no trailing slash), which
drops the final base-path segment: `"entries.json"` resolves to
`"/entries.json"`, not `"/v2/entries.json"`, and the leading-slash paths
its call sites pass replace the base path entirely.  The part_013 and
gemini-cli builders, and zed under a trailing-slash base, do preserve the
base path with exactly one separator. -/
theorem c5_url_resolution :
    urlResolvePath "/v2" "entries.json" = "/entries.json"
    ∧ urlResolvePath "/v2" "/unread_entries.json" = "/unread_entries.json"
    ∧ urlResolvePath "/v2/" "/unread_entries.json" = "/unread_entries.json"
    ∧ urlResolvePath "/v2/" "entries.json" = "/v2/entries.json"
    ∧ vscodeBuildURLPath "/v2/" "entries.json" = "/v2/entries.json"
    ∧ vscodeBuildURLPath "/v2" "entries.json" = "/v2/entries.json"
    ∧ geminiJoinPath "/v2/" "entries.json" = "/v2/entries.json"
    ∧ ("/entries.json" : String) ≠ "/v2/entries.json" := by
  refine ⟨by decide, by decide, by decide, by decide, by decide, by decide, by decide, by decide⟩

/-- C6 counterexample: the claudecode variant's decode step, given a 200
response with an empty body and a caller-supplied target (here an `Int`
with a parser that accepts anything), returns a decode error instead of
leaving the target unchanged: `json.Decoder.Decode` yields `io.EOF` on the
empty body and the code treats any non-nil error as failure. -/
theorem c6_claudecode_empty_body_cex :
    claudeDecodeBody 200 "" (fun _ => some (0 : Int)) 7 true
      = Except.error "failed to decode response" := by
  rfl

/-- C6 (amended): a 204 status, and an empty body in the part_013 and
part_001 variants, decode as a successful no-op leaving the caller's
target unchanged; the claudecode variant instead returns a decode error
for an empty body on any non-204 2xx response when a target is supplied. -/
theorem c6_empty_body_decode (α : Type) (parse : String → Option α) (target : α)
    (status : Nat) (_h1 : 200 ≤ status) (_h2 : status < 300) (h204 : status ≠ 204) :
    vscodeDecodeBody "" parse target true = Except.ok target
    ∧ julesDecodeBody status "" parse target true = Except.ok target
    ∧ julesDecodeBody 204 "" parse target true = Except.ok target
    ∧ claudeDecodeBody 204 "" parse target true = Except.ok target
    ∧ claudeDecodeBody status "" parse target true
        = Except.error "failed to decode response" := by
  refine ⟨?_, ?_, rfl, rfl, ?_⟩
  · simp [vscodeDecodeBody]
  · by_cases h : status = 204
    · simp [julesDecodeBody, h]
    · simp [julesDecodeBody, h, decodeStream]
  · simp [claudeDecodeBody, h204, decodeStream]

/-- C6 witness: status 200 is 2xx and not 204, with an `Int` target. -/
theorem c6_empty_body_decode_witness :
    ((200 : Nat) ≤ 200) ∧ ((200 : Nat) < 300) ∧ ((200 : Nat) ≠ 204)
    ∧ (vscodeDecodeBody "" (fun _ => some (0 : Int)) 7 true = Except.ok 7
        ∧ julesDecodeBody 200 "" (fun _ => some (0 : Int)) 7 true = Except.ok 7
        ∧ julesDecodeBody 204 "" (fun _ => some (0 : Int)) 7 true = Except.ok 7
        ∧ claudeDecodeBody 204 "" (fun _ => some (0 : Int)) 7 true = Except.ok 7
        ∧ claudeDecodeBody 200 "" (fun _ => some (0 : Int)) 7 true
            = Except.error "failed to decode response") :=
  ⟨by decide, by decide, by decide,
    c6_empty_body_decode Int (fun _ => some 0) 7 200 (by decide) (by decide) (by decide)⟩

/-- The C7 scenario Link header: `<u1>; rel="next", <u2>; rel="last"`. -/
def scenarioLinkHeader : String :=
  "<http://e/2>; rel=\"next\", <http://e/5>; rel=\"last\""

/-- C7: on the scenario header the zed and gemini-cli extractors return
next = u1 and last = u2 with first and prev empty, as the claim states —
but the cited part_001 extractor (`GetPaginationLinks`) leaves `last`
empty: its `strings.Trim(relPart, "rel=\"")` treats the second argument as
a character set, so the leading `l` of `last` is also trimmed (the rel
parses as `ast`), contradicting its own comment `// Trim rel=" and "`. -/
theorem c7_link_header_extraction :
    zedParseLinkHeader scenarioLinkHeader
      = { first := "", prev := "", next := "http://e/2", last := "http://e/5" }
    ∧ geminiParseLinkHeader scenarioLinkHeader
        = { first := "", prev := "", next := "http://e/2", last := "http://e/5" }
    ∧ julesGetPaginationLinks scenarioLinkHeader
        = { first := "", prev := "", next := "http://e/2", last := "" }
    ∧ goTrimCutset ['r', 'e', 'l', '=', '"'] "rel=\"last\"".data = "ast".data := by
  refine ⟨by decide, by decide, by decide, by decide⟩

/-- An extraction result of part_014 carries no pagination URLs: it is
either `nil` or a struct whose four URL fields are all empty. -/
def p14NoURLs : Option P14PaginationInfo → Prop
  | none => True
  | some info =>
      info.nextPageURL = "" ∧ info.prevPageURL = "" ∧ info.firstPageURL = ""
        ∧ info.lastPageURL = ""

/-- C8: with no Link header (read as `""`) the zed extractor returns the
zero-value cursor whatever the record-count header holds, and part_014's
extractor carries no URLs; the record-count header parses to its integer
value via `strconv.Atoi`, defaulting to 0 when absent or malformed.  The
quantified headers `count` (well-formed, value `n`) and `bad` (malformed)
cover every possible record-count header. -/
theorem c8_no_link_header_zero_cursor (count bad : List Char) (n : Int)
    (hgood : goAtoi (goTrimSpace count) = some n)
    (hbad : goAtoi (goTrimSpace bad) = none) :
    (zedExtractPaginationInfo "" ⟨count⟩).links = {}
    ∧ (zedExtractPaginationInfo "" ⟨bad⟩).links = {}
    ∧ (zedExtractPaginationInfo "" ⟨count⟩).total = n
    ∧ (zedExtractPaginationInfo "" ⟨bad⟩).total = 0
    ∧ zedParseRecordCount "" = 0
    ∧ p14NoURLs (p14ExtractPaginationInfo "" ⟨count⟩)
    ∧ p14NoURLs (p14ExtractPaginationInfo "" ⟨bad⟩) := by
  have hc : count ≠ [] := by
    intro h
    rw [h] at hgood
    simp [goTrimSpace, trimEndsWith, goAtoi] at hgood
  refine ⟨rfl, rfl, ?_, ?_, rfl, ?_, ?_⟩
  · have hcs : (⟨count⟩ : String) ≠ "" := by
      intro h
      exact hc (congrArg String.data h)
    simp [zedExtractPaginationInfo, zedParseRecordCount, hcs, hgood]
  · by_cases hbs : (⟨bad⟩ : String) = ""
    · simp [zedExtractPaginationInfo, zedParseRecordCount, hbs]
    · simp [zedExtractPaginationInfo, zedParseRecordCount, hbs, hbad]
  · by_cases hbs : (⟨count⟩ : String) = ""
    · simp [p14ExtractPaginationInfo, hbs, p14NoURLs]
    · simp only [p14ExtractPaginationInfo]
      split
      · exact trivial
      · split
        · simp [p14ParseLinkHeader, mapGet, p14NoURLs]
        · exact trivial
  · by_cases hbs : (⟨bad⟩ : String) = ""
    · simp [p14ExtractPaginationInfo, hbs, p14NoURLs]
    · simp only [p14ExtractPaginationInfo]
      split
      · exact trivial
      · split
        · simp [p14ParseLinkHeader, mapGet, p14NoURLs]
        · exact trivial

/-- C8 witness: a well-formed count header `" 42 "` and a malformed one
`"12x"`. -/
theorem c8_no_link_header_zero_cursor_witness :
    goAtoi (goTrimSpace " 42 ".data) = some 42
    ∧ goAtoi (goTrimSpace "12x".data) = none
    ∧ ((zedExtractPaginationInfo "" ⟨" 42 ".data⟩).links = {}
        ∧ (zedExtractPaginationInfo "" ⟨"12x".data⟩).links = {}
        ∧ (zedExtractPaginationInfo "" ⟨" 42 ".data⟩).total = 42
        ∧ (zedExtractPaginationInfo "" ⟨"12x".data⟩).total = 0
        ∧ zedParseRecordCount "" = 0
        ∧ p14NoURLs (p14ExtractPaginationInfo "" ⟨" 42 ".data⟩)
        ∧ p14NoURLs (p14ExtractPaginationInfo "" ⟨"12x".data⟩)) :=
  ⟨by decide, by decide,
    c8_no_link_header_zero_cursor " 42 ".data "12x".data 42 (by decide) (by decide)⟩

/-- C9: for every ID set, the alternate ("POST") mode of the removal
operations issues a POST to the `/delete.json`-suffixed path with exactly
the same JSON body (same tree, same serialized bytes) that default mode
sends as a DELETE to the plain `.json` path — for the gemini-cli flagged
operations unconditionally, and for the part_020 function pairs whenever
the size guards admit the list. -/
theorem c9_dual_verb_same_body (ids bulk : List Int)
    (hb1 : 1 ≤ bulk.length) (hb2 : bulk.length ≤ 1000) :
    (geminiUnstarEntries ids true).body = (geminiUnstarEntries ids false).body
    ∧ renderJson (geminiUnstarEntries ids true).body
        = renderJson (geminiUnstarEntries ids false).body
    ∧ geminiUnstarEntries ids false
        = { method := "DELETE", path := "starred_entries.json",
            body := Json.jobj [("starred_entries", Json.jarr (ids.map Json.jnum))] }
    ∧ geminiUnstarEntries ids true
        = { method := "POST", path := "starred_entries/delete.json",
            body := Json.jobj [("starred_entries", Json.jarr (ids.map Json.jnum))] }
    ∧ geminiMarkAsRead ids false
        = { method := "DELETE", path := "unread_entries.json",
            body := Json.jobj [("unread_entries", Json.jarr (ids.map Json.jnum))] }
    ∧ geminiMarkAsRead ids true
        = { method := "POST", path := "unread_entries/delete.json",
            body := Json.jobj [("unread_entries", Json.jarr (ids.map Json.jnum))] }
    ∧ claudeUnstarEntries bulk
        = BulkStep.request "DELETE" "/starred_entries.json"
            (Json.jobj [("starred_entries", Json.jarr (bulk.map Json.jnum))])
    ∧ claudeUnstarEntriesAlt bulk
        = BulkStep.request "POST" "/starred_entries/delete.json"
            (Json.jobj [("starred_entries", Json.jarr (bulk.map Json.jnum))])
    ∧ claudeMarkEntriesRead bulk
        = BulkStep.request "DELETE" "/unread_entries.json"
            (Json.jobj [("unread_entries", Json.jarr (bulk.map Json.jnum))])
    ∧ claudeMarkEntriesReadAlt bulk
        = BulkStep.request "POST" "/unread_entries/delete.json"
            (Json.jobj [("unread_entries", Json.jarr (bulk.map Json.jnum))]) := by
  have hb0 : ¬ bulk.length = 0 := by omega
  have hble : ¬ 1000 < bulk.length := by omega
  refine ⟨rfl, rfl, rfl, rfl, rfl, rfl, ?_, ?_, ?_, ?_⟩ <;>
    simp [claudeUnstarEntries, claudeUnstarEntriesAlt, claudeMarkEntriesRead,
      claudeMarkEntriesReadAlt, hb0, hble]

/-- C9 witness: the three-element ID set `[4, 5, 6]`. -/
theorem c9_dual_verb_same_body_witness :
    (1 ≤ ([4, 5, 6] : List Int).length) ∧ (([4, 5, 6] : List Int).length ≤ 1000)
    ∧ ((geminiUnstarEntries [4, 5, 6] true).body = (geminiUnstarEntries [4, 5, 6] false).body
        ∧ renderJson (geminiUnstarEntries [4, 5, 6] true).body
            = renderJson (geminiUnstarEntries [4, 5, 6] false).body
        ∧ geminiUnstarEntries [4, 5, 6] false
            = { method := "DELETE", path := "starred_entries.json",
                body := Json.jobj [("starred_entries",
                  Json.jarr (([4, 5, 6] : List Int).map Json.jnum))] }
        ∧ geminiUnstarEntries [4, 5, 6] true
            = { method := "POST", path := "starred_entries/delete.json",
                body := Json.jobj [("starred_entries",
                  Json.jarr (([4, 5, 6] : List Int).map Json.jnum))] }
        ∧ geminiMarkAsRead [4, 5, 6] false
            = { method := "DELETE", path := "unread_entries.json",
                body := Json.jobj [("unread_entries",
                  Json.jarr (([4, 5, 6] : List Int).map Json.jnum))] }
        ∧ geminiMarkAsRead [4, 5, 6] true
            = { method := "POST", path := "unread_entries/delete.json",
                body := Json.jobj [("unread_entries",
                  Json.jarr (([4, 5, 6] : List Int).map Json.jnum))] }
        ∧ claudeUnstarEntries [4, 5, 6]
            = BulkStep.request "DELETE" "/starred_entries.json"
                (Json.jobj [("starred_entries",
                  Json.jarr (([4, 5, 6] : List Int).map Json.jnum))])
        ∧ claudeUnstarEntriesAlt [4, 5, 6]
            = BulkStep.request "POST" "/starred_entries/delete.json"
                (Json.jobj [("starred_entries",
                  Json.jarr (([4, 5, 6] : List Int).map Json.jnum))])
        ∧ claudeMarkEntriesRead [4, 5, 6]
            = BulkStep.request "DELETE" "/unread_entries.json"
                (Json.jobj [("unread_entries",
                  Json.jarr (([4, 5, 6] : List Int).map Json.jnum))])
        ∧ claudeMarkEntriesReadAlt [4, 5, 6]
            = BulkStep.request "POST" "/unread_entries/delete.json"
                (Json.jobj [("unread_entries",
                  Json.jarr (([4, 5, 6] : List Int).map Json.jnum))])) :=
  ⟨by simp, by simp, c9_dual_verb_same_body [4, 5, 6] [4, 5, 6] (by simp) (by simp)⟩

set_option maxHeartbeats 2000000 in
/-- C10: when more than 100 IDs are supplied, `buildEntryParams` silently
truncates: the options struct reachable through the caller's pointer ends
up with only the first 100 IDs, no error is possible (the function's type
returns none), and the `ids` query parameter is set to exactly the first
100 IDs joined with commas. -/
theorem c10_entry_ids_truncated (opts : EntryOptions) (h : 100 < opts.ids.length) :
    (vscodeBuildEntryParams (some opts)).2
        = some { opts with ids := opts.ids.take 100 }
    ∧ ("ids", String.intercalate "," ((opts.ids.take 100).map toString))
        ∈ (vscodeBuildEntryParams (some opts)).1 := by
  have hpos : 0 < opts.ids.length := by omega
  have htr : MaxEntriesPerRequest < opts.ids.length := by
    simpa [MaxEntriesPerRequest] using h
  constructor
  · simp [vscodeBuildEntryParams, MaxEntriesPerRequest, hpos, h]
  · obtain ⟨page, since, ids, read, starred, perPage, mode, io, ie, icd⟩ := opts
    rcases page with _ | p <;> rcases since with _ | t <;> rcases read with _ | r <;>
      rcases starred with _ | st <;> rcases perPage with _ | pp <;>
      by_cases hm : mode = "" <;> cases io <;> cases ie <;> cases icd <;>
      simp [vscodeBuildEntryParams, setParam, MaxEntriesPerRequest, hpos, h, hm,
        List.mem_append]

/-- C10 witness: options holding 101 IDs are truncated to the first 100. -/
theorem c10_entry_ids_truncated_witness :
    (100 < (({ ids := List.replicate 101 (7 : Int) } : EntryOptions)).ids.length)
    ∧ ((vscodeBuildEntryParams (some ({ ids := List.replicate 101 (7 : Int) } : EntryOptions))).2
          = some { ({ ids := List.replicate 101 (7 : Int) } : EntryOptions) with
              ids := (({ ids := List.replicate 101 (7 : Int) } : EntryOptions)).ids.take 100 }
        ∧ ("ids", String.intercalate ","
              (((({ ids := List.replicate 101 (7 : Int) } : EntryOptions)).ids.take 100).map toString))
            ∈ (vscodeBuildEntryParams
                (some ({ ids := List.replicate 101 (7 : Int) } : EntryOptions))).1) :=
  ⟨by simp only [List.length_replicate]; decide,
    c10_entry_ids_truncated { ids := List.replicate 101 (7 : Int) }
      (by simp only [List.length_replicate]; decide)⟩
